import Mathlib

/-!
Shallow embedding of the queue-consumption / output-dispatch pipeline of
`template_python` (`src/app/output_handler.py`, `src/app/queue_handler.py`,
`src/app/queue_sender.py`, `src/app/utils/rate_limit.py`,
`src/app/utils/types.py`), together with theorems settling the spec claims.
-/

namespace TemplatePy

/-- A dynamically typed Python value, as far as the pipeline inspects one:
the code only ever discriminates lists, dicts and everything else, so scalar
values (`str`, `int`, `float`, `None`, ...) are modelled as opaque atoms. -/
inductive PyVal where
  | atom (val : String)
  | list (xs : List PyVal)
  | dict (kvs : List (String × PyVal))

mutual

/-- Decidable equality for `PyVal`. -/
def PyVal.decEq : (a b : PyVal) → Decidable (a = b)
  | .atom a, .atom b =>
      match String.decEq a b with
      | isTrue h => isTrue (h ▸ rfl)
      | isFalse h => isFalse fun hh => h (PyVal.atom.inj hh)
  | .list xs, .list ys =>
      match PyVal.decEqList xs ys with
      | isTrue h => isTrue (h ▸ rfl)
      | isFalse h => isFalse fun hh => h (PyVal.list.inj hh)
  | .dict xs, .dict ys =>
      match PyVal.decEqKvs xs ys with
      | isTrue h => isTrue (h ▸ rfl)
      | isFalse h => isFalse fun hh => h (PyVal.dict.inj hh)
  | .atom _, .list _ => isFalse fun hh => PyVal.noConfusion hh
  | .atom _, .dict _ => isFalse fun hh => PyVal.noConfusion hh
  | .list _, .atom _ => isFalse fun hh => PyVal.noConfusion hh
  | .list _, .dict _ => isFalse fun hh => PyVal.noConfusion hh
  | .dict _, .atom _ => isFalse fun hh => PyVal.noConfusion hh
  | .dict _, .list _ => isFalse fun hh => PyVal.noConfusion hh

/-- Decidable equality for lists of `PyVal`. -/
def PyVal.decEqList : (xs ys : List PyVal) → Decidable (xs = ys)
  | [], [] => isTrue rfl
  | [], _ :: _ => isFalse fun hh => List.noConfusion hh
  | _ :: _, [] => isFalse fun hh => List.noConfusion hh
  | x :: xs, y :: ys =>
      match PyVal.decEq x y, PyVal.decEqList xs ys with
      | isTrue h1, isTrue h2 => isTrue (by rw [h1, h2])
      | isFalse h1, _ => isFalse fun hh => h1 (List.cons.inj hh).1
      | _, isFalse h2 => isFalse fun hh => h2 (List.cons.inj hh).2

/-- Decidable equality for string-keyed association lists of `PyVal`. -/
def PyVal.decEqKvs : (xs ys : List (String × PyVal)) → Decidable (xs = ys)
  | [], [] => isTrue rfl
  | [], _ :: _ => isFalse fun hh => List.noConfusion hh
  | _ :: _, [] => isFalse fun hh => List.noConfusion hh
  | (k1, v1) :: xs, (k2, v2) :: ys =>
      match String.decEq k1 k2, PyVal.decEq v1 v2, PyVal.decEqKvs xs ys with
      | isTrue h1, isTrue h2, isTrue h3 => isTrue (by rw [h1, h2, h3])
      | isFalse h1, _, _ => isFalse fun hh => h1 (congrArg Prod.fst (List.cons.inj hh).1)
      | _, isFalse h2, _ => isFalse fun hh => h2 (congrArg Prod.snd (List.cons.inj hh).1)
      | _, _, isFalse h3 => isFalse fun hh => h3 (List.cons.inj hh).2

end

instance : DecidableEq PyVal := PyVal.decEq

/-- Model of `validate_dict` (`app/utils/types.py`): all required keys are
present in the mapping. -/
def validate_dict (data : List (String × PyVal)) (required_keys : List String) : Bool :=
  required_keys.all fun key => data.any fun kv => kv.1 = key

/-- Model of `validate_list_of_dicts` (`app/utils/types.py`): the input is a
list and every item is a dict containing the required keys; any non-list input
yields `false`.  The function only ever returns a boolean, it never raises. -/
def validate_list_of_dicts (data : PyVal) (required_keys : List String) : Bool :=
  match data with
  | .list xs =>
      xs.all fun item =>
        match item with
        | .dict kvs => validate_dict kvs required_keys
        | _ => false
  | _ => false

/-- The closed `OutputMode` enumeration of `app/utils/types.py`. -/
inductive OutputMode where
  | queue
  | log
  | stdout
  | rest
  | s3
  | database
deriving DecidableEq

/-- The string value of each `OutputMode` member (`OutputMode` is a `str`
mixin enum, so each member equals and hashes as its value string). -/
def OutputMode.value : OutputMode → String
  | .queue => "queue"
  | .log => "log"
  | .stdout => "stdout"
  | .rest => "rest"
  | .s3 => "s3"
  | .database => "database"

/-- Model of the enum constructor `OutputMode(s)`: the member whose value is
`s`, or `Option.none` where Python raises `ValueError`. -/
def OutputMode.ofString? (s : String) : Option OutputMode :=
  if s = "queue" then some .queue
  else if s = "log" then some .log
  else if s = "stdout" then some .stdout
  else if s = "rest" then some .rest
  else if s = "s3" then some .s3
  else if s = "database" then some .database
  else Option.none

/-- The dispatch dict of `_get_dispatch_method`, with each handler identified
by its sink tag.  Because `OutputMode` mixes in `str`, a member hashes and
compares equal to its value string, so the dict behaves as if keyed by the
value strings; entries are listed in source order. -/
def dispatchTable : List (String × OutputMode) :=
  [("log", .log), ("stdout", .stdout), ("queue", .queue),
   ("rest", .rest), ("s3", .s3), ("database", .database)]

/-- `_get_dispatch_method`: `.get` on the dispatch dict, returning the handler
for a recognized mode and `Option.none` otherwise. -/
def getDispatchMethod (mode : String) : Option OutputMode :=
  dispatchTable.lookup mode

/-- Observable events during one `OutputDispatcher.send` call. -/
inductive SendEvent where
  | invoked (sink : OutputMode) (data : PyVal)
  | warnedUnhandledMode (mode : String)
  | warnedInvalidPaperMode (mode : String)
deriving DecidableEq

/-- Exceptions that can escape the body of `send` into its `except` clause. -/
inductive SendExc where
  | valueError (mode : String)
  | sinkError (sink : OutputMode)
deriving DecidableEq

/-- The configuration values `send` consults. -/
structure SendConfig where
  paperTradingEnabled : Bool
  paperTradeMode : String
  outputModes : List String
deriving DecidableEq

/-- How an invocation of `send` finishes, as its caller observes it. -/
inductive PyOutcome where
  | returned
  | raised (e : SendExc)
deriving DecidableEq

/-- A complete run of `send`: the events it produced, whether its `except`
clause logged a failure, and how it finished. -/
structure SendRun where
  events : List SendEvent
  errorLogged : Bool
  outcome : PyOutcome
deriving DecidableEq

/-- The `for mode in self.output_modes` loop of `send`: each mode string is
resolved through the dispatch dict; a missing entry logs a warning and the
loop continues; an invoked handler that raises aborts the loop with the
escaping exception. -/
def dispatchLoop (raises : OutputMode → Bool) (data : PyVal) :
    List String → List SendEvent × Option SendExc
  | [] => ([], Option.none)
  | mode :: restModes =>
    match getDispatchMethod mode with
    | Option.none =>
        let r := dispatchLoop raises data restModes
        (SendEvent.warnedUnhandledMode mode :: r.1, r.2)
    | some sink =>
        if raises sink then
          ([SendEvent.invoked sink data], some (SendExc.sinkError sink))
        else
          let r := dispatchLoop raises data restModes
          (SendEvent.invoked sink data :: r.1, r.2)

/-- The body of `OutputDispatcher.send` inside its `try` block.  The result of
`validate_list_of_dicts(data, required_keys=["text"])` is computed and then
discarded, exactly as in the source.  With paper trading enabled, the paper
mode string goes through the `OutputMode` constructor (raising `ValueError` on
an unknown value) and its handler is looked up and invoked; otherwise the
configured-mode loop runs. -/
def sendBody (cfg : SendConfig) (raises : OutputMode → Bool) (data : PyVal) :
    List SendEvent × Option SendExc :=
  let _valid := validate_list_of_dicts data ["text"]
  if cfg.paperTradingEnabled then
    match OutputMode.ofString? cfg.paperTradeMode with
    | Option.none => ([], some (SendExc.valueError cfg.paperTradeMode))
    | some m =>
        match dispatchTable.lookup m.value with
        | some sink =>
            if raises sink then
              ([SendEvent.invoked sink data], some (SendExc.sinkError sink))
            else
              ([SendEvent.invoked sink data], Option.none)
        | Option.none =>
            ([SendEvent.warnedInvalidPaperMode cfg.paperTradeMode], Option.none)
  else
    dispatchLoop raises data cfg.outputModes

/-- `OutputDispatcher.send`: run the body and catch every exception, logging a
send failure; the call always returns `None` to its caller. -/
def send (cfg : SendConfig) (raises : OutputMode → Bool) (data : PyVal) : SendRun :=
  match sendBody cfg raises data with
  | (evs, Option.none) => ⟨evs, false, PyOutcome.returned⟩
  | (evs, some _) => ⟨evs, true, PyOutcome.returned⟩

/-- The event produced for one configured mode string, as the dispatch loop
emits it when no sink raises. -/
def modeEvent (data : PyVal) (mode : String) : SendEvent :=
  match getDispatchMethod mode with
  | some sink => SendEvent.invoked sink data
  | Option.none => SendEvent.warnedUnhandledMode mode

/-- State of the token-bucket `RateLimiter` (`app/utils/rate_limit.py`);
clock readings and token counts are modelled as rationals. -/
structure RateLimiter where
  maxRequests : ℕ
  timeWindow : ℚ
  tokens : ℚ
  lastCheck : ℚ
deriving DecidableEq

/-- `RateLimiter.__init__` after its argument validation: a full bucket whose
last-check stamp is the construction time. -/
def RateLimiter.init (maxRequests : ℕ) (timeWindow : ℚ) (now : ℚ) : RateLimiter :=
  ⟨maxRequests, timeWindow, (maxRequests : ℚ), now⟩

/-- One `RateLimiter.acquire` call observed at wall-clock time `now`:
replenish by elapsed time times the refill rate, capping at `maxRequests` and
stamping `lastCheck`; if fewer than one token results, sleep
`(1 - tokens) / refill_rate` capped at the window and hold exactly one token;
finally consume one token.  Returns the new state and the time slept. -/
def RateLimiter.acquire (s : RateLimiter) (now : ℚ) : RateLimiter × ℚ :=
  let elapsed := now - s.lastCheck
  let refillRate := (s.maxRequests : ℚ) / s.timeWindow
  let refilled := min (s.maxRequests : ℚ) (s.tokens + elapsed * refillRate)
  let slept := if refilled < 1 then min ((1 - refilled) / refillRate) s.timeWindow else 0
  let afterSleep := if refilled < 1 then (1 : ℚ) else refilled
  ({ s with tokens := afterSleep - 1, lastCheck := now }, slept)

/-- The `acquire` step exactly as §4.1 of the spec words it: refill by
`elapsed * (maxRequests / windowSeconds)` capped at `maxRequests`; if the
resulting tokens are below one, sleep `(1 - tokens) * (windowSeconds /
maxRequests)` capped at `windowSeconds` and set tokens to exactly one;
finally decrement tokens by one. -/
def RateLimiter.acquireSpec (s : RateLimiter) (now : ℚ) : RateLimiter × ℚ :=
  let elapsed := now - s.lastCheck
  let refilled :=
    min (s.maxRequests : ℚ) (s.tokens + elapsed * ((s.maxRequests : ℚ) / s.timeWindow))
  let slept :=
    if refilled < 1 then
      min ((1 - refilled) * (s.timeWindow / (s.maxRequests : ℚ))) s.timeWindow
    else 0
  let afterSleep := if refilled < 1 then (1 : ℚ) else refilled
  ({ s with tokens := afterSleep - 1, lastCheck := now }, slept)

/-- Every state observed while running a sequence of `acquire` calls at the
given wall-clock times: the state before each call and after the last one. -/
def RateLimiter.trace (s : RateLimiter) : List ℚ → List RateLimiter
  | [] => [s]
  | t :: ts => s :: ((s.acquire t).1).trace ts

/-- tenacity `wait_exponential(multiplier, max, min)`: the sleep after the
failed attempt numbered `attemptNumber` is `multiplier * 2 ^ (attemptNumber -
1)`, clamped below by `max 0 lo` and above by `hi`. -/
def waitExponential (multiplier lo hi : ℚ) (attemptNumber : ℕ) : ℚ :=
  max (max 0 lo) (min (multiplier * 2 ^ (attemptNumber - 1)) hi)

/-- A finished run of a tenacity-retried call: how many attempts were made,
whether the final attempt succeeded, and the sleeps between attempts. -/
structure RetryRun where
  attempts : ℕ
  succeeded : Bool
  waits : List ℚ
deriving DecidableEq

/-- Runs up to `fuel` further attempts starting at attempt number `k`: a
successful attempt stops the run; a failed attempt with no fuel left stops it
as a failure (tenacity raises `RetryError`); otherwise tenacity sleeps
`wait k` and retries. -/
def retryGo (wait : ℕ → ℚ) (ok : ℕ → Bool) : ℕ → ℕ → RetryRun
  | 0, _ => ⟨0, false, []⟩
  | fuel + 1, k =>
    if ok k then ⟨1, true, []⟩
    else if fuel = 0 then ⟨1, false, []⟩
    else
      let r := retryGo wait ok fuel (k + 1)
      ⟨r.attempts + 1, r.succeeded, wait k :: r.waits⟩

/-- tenacity `retry(stop=stop_after_attempt(maxAttempts), wait=wait)` around a
call whose attempt number `k` succeeds exactly when `ok k`. -/
def retryCall (maxAttempts : ℕ) (wait : ℕ → ℚ) (ok : ℕ → Bool) : RetryRun :=
  retryGo wait ok maxAttempts 1

/-- The retry wrapper of `_output_to_queue`:
`retry(stop=stop_after_attempt(3), wait=wait_exponential(multiplier=1, min=1,
max=10))` around the publish-and-record body. -/
def outputToQueueRetry (ok : ℕ → Bool) : RetryRun :=
  retryCall 3 (waitExponential 1 1 10) ok

/-- How many times the retried `_output_to_queue` records its
`output_queue_success` metric: once, after the attempt on which
`publish_to_queue` returned. -/
def outputToQueueSuccessRecords (ok : ℕ → Bool) : ℕ :=
  if (outputToQueueRetry ok).succeeded then 1 else 0

/-- Whether `_output_to_queue` raises out of its retry wrapper: tenacity
raises `RetryError` once the final allowed attempt has failed. -/
def outputToQueueRaises (ok : ℕ → Bool) : Bool :=
  !(outputToQueueRetry ok).succeeded

/-- An AMQP delivery as `on_message` sees it: the delivery tag plus the result
of `json.loads` on the raw body (`Option.none` models a body that fails to
parse). -/
structure RabbitDelivery where
  deliveryTag : ℕ
  body : Option PyVal
deriving DecidableEq

/-- The broker-visible outcome of handing one delivery to `on_message`. -/
inductive DeliveryOutcome where
  | acked (tag : ℕ)
  | nacked (tag : ℕ) (requeue : Bool)
  | stoppedConsuming
deriving DecidableEq

/-- Model of the RabbitMQ `on_message` callback for a single delivery: under
shutdown it stops consuming; otherwise it parses the body, runs the processing
callback on the singleton batch and acks; any exception from parsing or from
the callback is caught and the message is nacked with `requeue=False`. -/
def onMessage (shutdown : Bool) (callbackOk : PyVal → Bool) (msg : RabbitDelivery) :
    DeliveryOutcome :=
  if shutdown then DeliveryOutcome.stoppedConsuming
  else
    match msg.body with
    | Option.none => DeliveryOutcome.nacked msg.deliveryTag false
    | some payload =>
        if callbackOk payload then DeliveryOutcome.acked msg.deliveryTag
        else DeliveryOutcome.nacked msg.deliveryTag false

/-- The RabbitMQ consumer stream (no shutdown in flight): deliveries are
handed to `on_message` one at a time, and no outcome influences the handling
of the later deliveries. -/
def rabbitProcess (callbackOk : PyVal → Bool) (msgs : List RabbitDelivery) :
    List DeliveryOutcome :=
  msgs.map (onMessage false callbackOk)

/-- One raw SQS message: its receipt handle plus the result of `json.loads` on
its body (`Option.none` models an unparseable body). -/
structure SqsMessage where
  receiptHandle : ℕ
  body : Option PyVal
deriving DecidableEq

/-- The observable result of one iteration of the SQS polling loop. -/
structure SqsIterationResult where
  parseWarnings : ℕ
  callbackBatch : Option (List PyVal)
  deletedHandles : List ℕ
  escaped : Bool
deriving DecidableEq

/-- The per-message accumulation loop of `_start_sqs_listener`: each parsed
body is appended to `payloads` and its receipt handle to `receipt_handles`; a
parse failure logs a warning and appends to neither list. -/
def sqsCollect : List SqsMessage → List PyVal × List ℕ × ℕ
  | [] => ([], [], 0)
  | msg :: rest =>
    let r := sqsCollect rest
    match msg.body with
    | some payload => (payload :: r.1, msg.receiptHandle :: r.2.1, r.2.2)
    | Option.none => (r.1, r.2.1, r.2.2 + 1)

/-- One iteration of the SQS polling loop on a received batch: collect the
parsed payloads, invoke the callback once on the whole collected batch, then
delete exactly the collected receipt handles.  The `except` inside the loop
catches only `BotoCoreError` and `NoCredentialsError`, so a callback exception
escapes the iteration before any delete is issued. -/
def sqsIteration (callbackOk : List PyVal → Bool) (msgs : List SqsMessage) :
    SqsIterationResult :=
  if (sqsCollect msgs).1.isEmpty then
    ⟨(sqsCollect msgs).2.2, Option.none, [], false⟩
  else if callbackOk (sqsCollect msgs).1 then
    ⟨(sqsCollect msgs).2.2, some (sqsCollect msgs).1, (sqsCollect msgs).2.1, false⟩
  else
    ⟨(sqsCollect msgs).2.2, some (sqsCollect msgs).1, [], true⟩

/-- The SQS polling loop over the successive receive results: iterations run
in order until one escapes with an uncaught exception, which aborts the
listener. -/
def sqsLoop (callbackOk : List PyVal → Bool) : List (List SqsMessage) → List SqsIterationResult
  | [] => []
  | batch :: rest =>
    let r := sqsIteration callbackOk batch
    if r.escaped then [r] else r :: sqsLoop callbackOk rest

/-- Looking up a member by its own value string in the dispatch dict always
finds that member (the dict is exhaustive over `OutputMode`). -/
theorem dispatchTable_lookup_value (m : OutputMode) :
    dispatchTable.lookup m.value = some m := by
  cases m <;> rfl

/-- The dispatch dict resolves a mode string to a handler exactly when the
string is the value of that handler's `OutputMode` member. -/
theorem getDispatchMethod_eq_some_iff (mode : String) (m : OutputMode) :
    getDispatchMethod mode = some m ↔ mode = m.value := by
  constructor
  · intro h
    simp only [getDispatchMethod, dispatchTable, List.lookup] at h
    repeat' split at h
    all_goals cases h
    all_goals simp_all [OutputMode.value]
  · intro h
    subst h
    exact dispatchTable_lookup_value m

/-- When no sink handler raises, the dispatch loop walks the whole configured
list, invoking every recognized mode in order and warning on every
unrecognized one, and no exception escapes. -/
theorem dispatchLoop_no_raise (raises : OutputMode → Bool) (data : PyVal)
    (hr : ∀ m : OutputMode, raises m = false) (modes : List String) :
    dispatchLoop raises data modes = (modes.map (modeEvent data), Option.none) := by
  induction modes with
  | nil => rfl
  | cons mode rest ih =>
    rcases hg : getDispatchMethod mode with _ | sink <;>
      simp [dispatchLoop, modeEvent, hg, hr, ih]

/-- Splitting the dispatch loop at a prefix none of whose recognized sinks
raises: the prefix contributes its events and the continuation decides the
rest. -/
theorem dispatchLoop_append (raises : OutputMode → Bool) (data : PyVal)
    (pre rest : List String)
    (hpre : ∀ s ∈ pre.filterMap getDispatchMethod, raises s = false) :
    dispatchLoop raises data (pre ++ rest) =
      ((dispatchLoop raises data pre).1 ++ (dispatchLoop raises data rest).1,
        (dispatchLoop raises data rest).2) := by
  induction pre with
  | nil => simp [dispatchLoop]
  | cons mode pre ih =>
    have hpre2 : ∀ s ∈ pre.filterMap getDispatchMethod, raises s = false := by
      intro s hs
      exact hpre s (by simp only [List.filterMap_cons]; cases getDispatchMethod mode <;>
        simp_all)
    rcases hg : getDispatchMethod mode with _ | sink
    · simp [dispatchLoop, hg, ih hpre2]
    · have hsink : raises sink = false := by
        refine hpre sink ?_
        simp [List.filterMap_cons, hg]
      simp [dispatchLoop, hg, hsink, ih hpre2]

/-- How often each sink-invocation event occurs in the no-raise event stream:
once per occurrence of the sink's value string in the configured list. -/
theorem count_modeEvent (data : PyVal) (modes : List String) (m : OutputMode) :
    (modes.map (modeEvent data)).count (SendEvent.invoked m data) =
      modes.count m.value := by
  induction modes with
  | nil => rfl
  | cons mode rest ih =>
    simp only [List.map_cons, List.count_cons, ih]
    congr 1
    by_cases hmode : mode = m.value
    · subst hmode
      simp [modeEvent, getDispatchMethod, dispatchTable_lookup_value]
    · rcases hg : getDispatchMethod mode with _ | sink
      · simp [modeEvent, hg, hmode]
      · have hsm : sink ≠ m := by
          intro hs
          exact hmode ((getDispatchMethod_eq_some_iff mode m).1 (hs ▸ hg))
        simp [modeEvent, hg, hmode, hsm]

/-- Claim C1 (code-bug evidence): at the concrete input `[{}]` — a list whose
single dict lacks the required `text` key — `validate_list_of_dicts` reports
the batch invalid, yet `send` with configured modes `["log"]` still invokes
the log sink with the whole batch, and no failure is reported: the boolean
returned by the validation call is discarded, so no batch is ever rejected
before the sinks. -/
theorem c1_validation_result_discarded :
    validate_list_of_dicts (PyVal.list [PyVal.dict []]) ["text"] = false ∧
      send (SendConfig.mk false "paper" ["log"]) (fun _ => false)
          (PyVal.list [PyVal.dict []]) =
        ⟨[SendEvent.invoked OutputMode.log (PyVal.list [PyVal.dict []])], false,
          PyOutcome.returned⟩ :=
  ⟨rfl, rfl⟩

/-- Claim C4: with paper trading enabled and a valid paper-trade target mode,
`send` invokes exactly the target sink once with the whole batch, and the run
does not depend on the configured output-mode list at all, so no handler from
that list is invoked. -/
theorem c4_paper_trading_overrides_modes
    (cfg : SendConfig) (raises : OutputMode → Bool) (data : PyVal) (m : OutputMode)
    (hp : cfg.paperTradingEnabled = true)
    (hm : OutputMode.ofString? cfg.paperTradeMode = some m) :
    (send cfg raises data).events = [SendEvent.invoked m data] ∧
      ∀ ms : List String,
        send (SendConfig.mk cfg.paperTradingEnabled cfg.paperTradeMode ms) raises data =
          send cfg raises data := by
  have hl := dispatchTable_lookup_value m
  constructor
  · simp only [send, sendBody, hp, if_true, hm, hl]
    cases hr : raises m <;> simp [hr]
  · intro ms
    simp only [send, sendBody, hp, if_true, hm, hl]

/-- Claim C4 witness at a concrete input: paper trading enabled with target
mode `log` and configured modes `["queue", "stdout"]` invokes only the log
sink. -/
theorem c4_paper_trading_overrides_modes_witness :
    (SendConfig.mk true "log" ["queue", "stdout"]).paperTradingEnabled = true ∧
      OutputMode.ofString? (SendConfig.mk true "log" ["queue", "stdout"]).paperTradeMode =
        some OutputMode.log ∧
      (send (SendConfig.mk true "log" ["queue", "stdout"]) (fun _ => false)
          (PyVal.list [])).events = [SendEvent.invoked OutputMode.log (PyVal.list [])] :=
  ⟨rfl, rfl,
    (c4_paper_trading_overrides_modes (SendConfig.mk true "log" ["queue", "stdout"])
        (fun _ => false) (PyVal.list []) OutputMode.log rfl rfl).1⟩

/-- Claim C10: for every configuration, every sink behavior and every input
value — list or not, well-formed or not — `send` finishes by returning `None`;
an exception raised inside the body never escapes, it only sets the logged
send-failure flag. -/
theorem c10_send_never_raises (cfg : SendConfig) (raises : OutputMode → Bool) (data : PyVal) :
    (send cfg raises data).outcome = PyOutcome.returned ∧
      (send cfg raises data).errorLogged = (sendBody cfg raises data).2.isSome := by
  rcases h : sendBody cfg raises data with ⟨evs, exc⟩
  cases exc <;> simp [send, h]

/-- Claim C2 counterexample: with configured modes `["queue", "log"]`, a valid
batch, and every publish attempt failing (so the queue sink's retry wrapper
exhausts its three attempts and raises `RetryError`), `send` invokes only the
queue sink and then just logs a failure: the log sink, although configured, is
never invoked — the claimed isolation between sinks does not hold. -/
theorem c2_queue_failure_skips_remaining_modes :
    outputToQueueRaises (fun _ => false) = true ∧
      send (SendConfig.mk false "paper" ["queue", "log"])
          (fun m =>
            match m with
            | OutputMode.queue => outputToQueueRaises (fun _ => false)
            | _ => false)
          (PyVal.list [PyVal.dict [("text", PyVal.atom "hi")]]) =
        ⟨[SendEvent.invoked OutputMode.queue
            (PyVal.list [PyVal.dict [("text", PyVal.atom "hi")]])],
          true, PyOutcome.returned⟩ :=
  ⟨rfl, rfl⟩

/-- Claim C2 amended: an exception escaping one sink handler (for instance the
queue sink once its retries are exhausted) aborts dispatch to every mode
configured after it; `send` catches the exception, logs a failure, and still
returns normally.  The modes configured before the failing sink are dispatched
as usual. -/
theorem c2_amended_escaping_sink_aborts_rest
    (raises : OutputMode → Bool) (data : PyVal) (pm mode : String)
    (pre post : List String) (m : OutputMode)
    (hmode : getDispatchMethod mode = some m)
    (hraise : raises m = true)
    (hpre : ∀ s ∈ pre.filterMap getDispatchMethod, raises s = false) :
    send (SendConfig.mk false pm (pre ++ mode :: post)) raises data =
      ⟨(dispatchLoop raises data pre).1 ++ [SendEvent.invoked m data],
        true, PyOutcome.returned⟩ := by
  have hloop :
      dispatchLoop raises data (pre ++ mode :: post) =
        ((dispatchLoop raises data pre).1 ++ [SendEvent.invoked m data],
          some (SendExc.sinkError m)) := by
    rw [dispatchLoop_append raises data pre (mode :: post) hpre]
    simp [dispatchLoop, hmode, hraise]
  simp [send, sendBody, hloop]

/-- Claim C2 amended witness at a concrete input: the queue sink raises after
its retries while `["bogus", "log"]` precede it and `["stdout"]` follows; the
log sink is dispatched, the stdout sink is not, and the failure is logged. -/
theorem c2_amended_escaping_sink_aborts_rest_witness :
    getDispatchMethod "queue" = some OutputMode.queue ∧
      (∀ s ∈ List.filterMap getDispatchMethod ["bogus", "log"],
        (fun m =>
          match m with
          | OutputMode.queue => true
          | _ => false) s = false) ∧
      send (SendConfig.mk false "paper" (["bogus", "log"] ++ "queue" :: ["stdout"]))
          (fun m =>
            match m with
            | OutputMode.queue => true
            | _ => false)
          (PyVal.list []) =
        ⟨(dispatchLoop
              (fun m =>
                match m with
                | OutputMode.queue => true
                | _ => false)
              (PyVal.list []) ["bogus", "log"]).1 ++
            [SendEvent.invoked OutputMode.queue (PyVal.list [])],
          true, PyOutcome.returned⟩ :=
  ⟨rfl, by decide,
    c2_amended_escaping_sink_aborts_rest
      (fun m =>
        match m with
        | OutputMode.queue => true
        | _ => false)
      (PyVal.list []) "paper" "queue" ["bogus", "log"] ["stdout"] OutputMode.queue
      rfl rfl (by decide)⟩

/-- Claim C5 counterexample: the configured list `["log", "log", "bogus"]`
contains recognized and unrecognized mode strings, yet `send` invokes the log
sink handler twice, not exactly once: the loop dispatches once per occurrence,
not once per recognized mode. -/
theorem c5_duplicate_mode_dispatched_twice :
    (send (SendConfig.mk false "paper" ["log", "log", "bogus"]) (fun _ => false)
          (PyVal.list [PyVal.dict [("text", PyVal.atom "hi")]])).events =
        [SendEvent.invoked OutputMode.log
            (PyVal.list [PyVal.dict [("text", PyVal.atom "hi")]]),
          SendEvent.invoked OutputMode.log
            (PyVal.list [PyVal.dict [("text", PyVal.atom "hi")]]),
          SendEvent.warnedUnhandledMode "bogus"] ∧
      ((send (SendConfig.mk false "paper" ["log", "log", "bogus"]) (fun _ => false)
            (PyVal.list [PyVal.dict [("text", PyVal.atom "hi")]])).events.count
          (SendEvent.invoked OutputMode.log
            (PyVal.list [PyVal.dict [("text", PyVal.atom "hi")]]))) = 2 :=
  ⟨rfl, rfl⟩

/-- Claim C5 amended: with paper trading disabled and no sink raising, `send`
walks the configured list in order, invoking the resolved handler with the
full batch once per occurrence of each recognized mode string — so exactly
once per recognized mode whenever the configured list has no duplicates — and
logging a warning for each unrecognized mode without aborting the loop; no
failure is reported. -/
theorem c5_amended_dispatch_per_occurrence
    (cfg : SendConfig) (raises : OutputMode → Bool) (data : PyVal)
    (hp : cfg.paperTradingEnabled = false)
    (hr : ∀ m : OutputMode, raises m = false) :
    send cfg raises data =
        ⟨cfg.outputModes.map (modeEvent data), false, PyOutcome.returned⟩ ∧
      ∀ m : OutputMode,
        (send cfg raises data).events.count (SendEvent.invoked m data) =
          cfg.outputModes.count m.value := by
  have hbody : send cfg raises data =
      ⟨cfg.outputModes.map (modeEvent data), false, PyOutcome.returned⟩ := by
    simp [send, sendBody, hp, dispatchLoop_no_raise raises data hr]
  refine ⟨hbody, fun m => ?_⟩
  rw [hbody]
  exact count_modeEvent data cfg.outputModes m

/-- Claim C5 amended witness at a concrete input: modes `["log", "stdout",
"bogus"]` dispatch to the log and stdout sinks exactly once each, in order,
and the unknown mode only produces a warning. -/
theorem c5_amended_dispatch_per_occurrence_witness :
    (SendConfig.mk false "paper" ["log", "stdout", "bogus"]).paperTradingEnabled = false ∧
      (send (SendConfig.mk false "paper" ["log", "stdout", "bogus"]) (fun _ => false)
          (PyVal.list [PyVal.dict [("text", PyVal.atom "hi")]])) =
        ⟨[SendEvent.invoked OutputMode.log
            (PyVal.list [PyVal.dict [("text", PyVal.atom "hi")]]),
          SendEvent.invoked OutputMode.stdout
            (PyVal.list [PyVal.dict [("text", PyVal.atom "hi")]]),
          SendEvent.warnedUnhandledMode "bogus"], false, PyOutcome.returned⟩ :=
  ⟨rfl,
    (c5_amended_dispatch_per_occurrence
        (SendConfig.mk false "paper" ["log", "stdout", "bogus"]) (fun _ => false)
        (PyVal.list [PyVal.dict [("text", PyVal.atom "hi")]]) rfl
        (fun _ => rfl)).1⟩

/-- After any single `acquire`, the token count lies between zero and
`maxRequests`, whatever the state before was and even if the clock reading
went backwards. -/
theorem acquire_tokens_bounds (s : RateLimiter) (now : ℚ) :
    0 ≤ ((s.acquire now).1).tokens ∧ ((s.acquire now).1).tokens ≤ (s.maxRequests : ℚ) := by
  have hmin : min (s.maxRequests : ℚ)
      (s.tokens + (now - s.lastCheck) * ((s.maxRequests : ℚ) / s.timeWindow)) ≤
        (s.maxRequests : ℚ) := min_le_left _ _
  have hcast : (0 : ℚ) ≤ (s.maxRequests : ℚ) := Nat.cast_nonneg _
  have htok : ((s.acquire now).1).tokens =
      (if min (s.maxRequests : ℚ)
            (s.tokens + (now - s.lastCheck) * ((s.maxRequests : ℚ) / s.timeWindow)) < 1
        then (1 : ℚ)
        else min (s.maxRequests : ℚ)
          (s.tokens + (now - s.lastCheck) * ((s.maxRequests : ℚ) / s.timeWindow))) - 1 := rfl
  rw [htok]
  split_ifs with h
  · exact ⟨by norm_num, by linarith⟩
  · have h1 : (1 : ℚ) ≤ min (s.maxRequests : ℚ)
        (s.tokens + (now - s.lastCheck) * ((s.maxRequests : ℚ) / s.timeWindow)) :=
      not_lt.mp h
    exact ⟨by linarith, by linarith⟩

/-- An `acquire` never changes the configured `maxRequests`. -/
theorem acquire_maxRequests (s : RateLimiter) (now : ℚ) :
    ((s.acquire now).1).maxRequests = s.maxRequests := rfl

/-- Every state along a trace honors the token bounds, provided the starting
state does. -/
theorem trace_invariant (s : RateLimiter) (ts : List ℚ)
    (h0 : 0 ≤ s.tokens) (h1 : s.tokens ≤ (s.maxRequests : ℚ)) :
    ∀ x ∈ s.trace ts, 0 ≤ x.tokens ∧ x.tokens ≤ (x.maxRequests : ℚ) := by
  induction ts generalizing s with
  | nil =>
    intro x hx
    simp only [RateLimiter.trace, List.mem_singleton] at hx
    subst hx
    exact ⟨h0, h1⟩
  | cons t ts ih =>
    intro x hx
    simp only [RateLimiter.trace, List.mem_cons] at hx
    rcases hx with rfl | hx
    · exact ⟨h0, h1⟩
    · have hb := acquire_tokens_bounds s t
      exact ih ((s.acquire t).1) hb.1 (by rw [acquire_maxRequests]; exact hb.2) x hx

/-- Every state along a trace keeps the `maxRequests` it started with. -/
theorem trace_maxRequests (s : RateLimiter) (ts : List ℚ) :
    ∀ x ∈ s.trace ts, x.maxRequests = s.maxRequests := by
  induction ts generalizing s with
  | nil =>
    intro x hx
    simp only [RateLimiter.trace, List.mem_singleton] at hx
    subst hx
    rfl
  | cons t ts ih =>
    intro x hx
    simp only [RateLimiter.trace, List.mem_cons] at hx
    rcases hx with rfl | hx
    · rfl
    · exact ih ((s.acquire t).1) x hx

/-- Claim C6: for a limiter constructed with positive `max_requests` and
`time_window`, every state observed before and after each `acquire` of an
arbitrary call sequence — even one whose wall-clock readings run backwards —
satisfies `0 ≤ tokens ≤ max_requests`. -/
theorem c6_token_count_invariant (n : ℕ) (w t0 : ℚ) (ts : List ℚ)
    (_hn : 0 < n) (_hw : 0 < w) :
    ∀ x ∈ (RateLimiter.init n w t0).trace ts, 0 ≤ x.tokens ∧ x.tokens ≤ (n : ℚ) := by
  intro x hx
  have h := trace_invariant (RateLimiter.init n w t0) ts
    (show (0 : ℚ) ≤ ((n : ℕ) : ℚ) from Nat.cast_nonneg n) (le_refl _) x hx
  have hm := trace_maxRequests (RateLimiter.init n w t0) ts x hx
  refine ⟨h.1, ?_⟩
  have h2 := h.2
  rw [hm] at h2
  exact h2

/-- Claim C6 witness: a limiter with two requests per one-second window, run
through three back-to-back acquires, keeps its token bounds after the last
one. -/
theorem c6_token_count_invariant_witness :
    0 ≤ (((((RateLimiter.init 2 1 0).acquire 0).1).acquire 0).1).tokens ∧
      (((((RateLimiter.init 2 1 0).acquire 0).1).acquire 0).1).tokens ≤ ((2 : ℕ) : ℚ) :=
  c6_token_count_invariant 2 1 0 [0, 0] (by norm_num) (by norm_num)
    (((((RateLimiter.init 2 1 0).acquire 0).1).acquire 0).1)
    (by simp [RateLimiter.trace])

/-- Claim C7: on every limiter state with the constructor-guaranteed positive
parameters, the implemented `acquire` computes exactly the refill, the
capped sleep `(1 - tokens) * (windowSeconds / maxRequests)`, the reset to one
token and the final decrement that the spec describes: dividing the deficit by
the refill rate is the same as multiplying it by `windowSeconds /
maxRequests`. -/
theorem c7_acquire_matches_spec (s : RateLimiter) (now : ℚ)
    (_hn : 0 < s.maxRequests) (_hw : 0 < s.timeWindow) :
    s.acquire now = s.acquireSpec now := by
  simp only [RateLimiter.acquire, RateLimiter.acquireSpec]
  have h : ∀ a : ℚ, a / ((s.maxRequests : ℚ) / s.timeWindow) =
      a * (s.timeWindow / (s.maxRequests : ℚ)) := fun a => by
    rw [div_div_eq_mul_div, mul_div_assoc]
  rw [h]

/-- Claim C7 witness: a half-full-below-one bucket (2 requests per second,
half a token left) takes the sleep branch and the two formulations agree. -/
theorem c7_acquire_matches_spec_witness :
    0 < (RateLimiter.mk 2 1 (1 / 2) 0).maxRequests ∧
      0 < (RateLimiter.mk 2 1 (1 / 2) 0).timeWindow ∧
      (RateLimiter.mk 2 1 (1 / 2) 0).acquire 0 =
        (RateLimiter.mk 2 1 (1 / 2) 0).acquireSpec 0 :=
  ⟨by norm_num, by norm_num,
    c7_acquire_matches_spec (RateLimiter.mk 2 1 (1 / 2) 0) 0 (by norm_num) (by norm_num)⟩

/-- A tenacity-retried call never runs more attempts than its fuel allows. -/
theorem retryGo_attempts_le (wait : ℕ → ℚ) (ok : ℕ → Bool) (fuel k : ℕ) :
    (retryGo wait ok fuel k).attempts ≤ fuel := by
  induction fuel generalizing k with
  | zero => exact le_refl 0
  | succ fuel ih =>
    simp only [retryGo]
    split_ifs with h1 h2
    · exact Nat.succ_le_succ (Nat.zero_le fuel)
    · exact Nat.succ_le_succ (Nat.zero_le fuel)
    · exact Nat.succ_le_succ (ih (k + 1))

/-- Claim C8: the queue sink's dispatch is wrapped in
`stop_after_attempt(3)` with `wait_exponential(multiplier=1, min=1, max=10)`:
no run makes more than three attempts, every backoff sleep lies between one
and ten seconds and the first one is exactly one second; and a sink failing
twice then succeeding makes exactly three attempts with backoff sleeps of one
and two seconds and records exactly one success. -/
theorem c8_queue_retry_policy :
    (∀ ok : ℕ → Bool, (outputToQueueRetry ok).attempts ≤ 3) ∧
      (∀ k : ℕ, 1 ≤ waitExponential 1 1 10 k ∧ waitExponential 1 1 10 k ≤ 10) ∧
      waitExponential 1 1 10 1 = 1 ∧
      outputToQueueRetry (fun k => k == 3) = ⟨3, true, [1, 2]⟩ ∧
      outputToQueueSuccessRecords (fun k => k == 3) = 1 := by
  have e1 : waitExponential 1 1 10 1 = 1 := by
    have h1 : ((1 : ℚ) * 2 ^ (1 - 1)) = 1 := by norm_num
    rw [waitExponential, h1, min_eq_left (by norm_num : (1 : ℚ) ≤ 10),
      max_eq_right (by norm_num : (0 : ℚ) ≤ 1), max_self]
  have e2 : waitExponential 1 1 10 2 = 2 := by
    have h2 : ((1 : ℚ) * 2 ^ (2 - 1)) = 2 := by norm_num
    rw [waitExponential, h2, min_eq_left (by norm_num : (2 : ℚ) ≤ 10),
      max_eq_right (by norm_num : (0 : ℚ) ≤ 1),
      max_eq_right (by norm_num : (1 : ℚ) ≤ 2)]
  have hrun : outputToQueueRetry (fun k => k == 3) =
      ⟨3, true, [waitExponential 1 1 10 1, waitExponential 1 1 10 2]⟩ := rfl
  refine ⟨?_, ?_, e1, by rw [hrun, e1, e2], rfl⟩
  · intro ok
    exact retryGo_attempts_le (waitExponential 1 1 10) ok 3 1
  · intro k
    unfold waitExponential
    constructor
    · calc (1 : ℚ) = max 0 1 := by norm_num
        _ ≤ max (max 0 1) (min (1 * 2 ^ (k - 1)) 10) := le_max_left _ _
    · apply max_le
      · norm_num
      · calc min ((1 : ℚ) * 2 ^ (k - 1)) 10 ≤ 10 := min_le_right _ _

/-- Claim C8 witness: the always-failing call stops after its three
attempts. -/
theorem c8_queue_retry_policy_witness :
    (outputToQueueRetry (fun _ => false)).attempts ≤ 3 :=
  c8_queue_retry_policy.1 (fun _ => false)

/-- In the SQS iteration, an escaped callback exception always means no
receipt handle was deleted. -/
theorem sqsIteration_escaped_no_delete (callbackOk : List PyVal → Bool)
    (msgs : List SqsMessage) (h : (sqsIteration callbackOk msgs).escaped = true) :
    (sqsIteration callbackOk msgs).deletedHandles = [] := by
  unfold sqsIteration at h ⊢
  split_ifs at h ⊢
  simp_all

/-- Claim C3 counterexample: on the SQS adapter a processing exception is not
caught inside the polling loop: with two parseable messages in the first
received batch and a callback that raises, no message of the batch is deleted
(so every one of them is redelivered after the visibility timeout, including
any whose processing would have succeeded alone) and the second batch is never
processed — the failure is per-loop, not per-message. -/
theorem c3_sqs_callback_failure_aborts_loop :
    sqsLoop (fun _ => false)
        [[SqsMessage.mk 1 (some (PyVal.atom "a")), SqsMessage.mk 2 (some (PyVal.atom "b"))],
          [SqsMessage.mk 3 (some (PyVal.atom "c"))]] =
      [⟨0, some [PyVal.atom "a", PyVal.atom "b"], [], true⟩] := rfl

/-- Claim C3 amended: per-message failure isolation holds on the RabbitMQ
adapter — each delivery's outcome is computed independently of every other
delivery, and a processing failure yields a reject without requeue for exactly
that delivery — while on the SQS adapter an exception escaping the callback
aborts the iteration before any delete and stops the polling loop, leaving the
later batches unprocessed. -/
theorem c3_amended_failure_isolation_per_adapter
    (callbackOk : PyVal → Bool) (xs ys : List RabbitDelivery) (msg : RabbitDelivery)
    (batchOk : List PyVal → Bool) (batch : List SqsMessage)
    (rest : List (List SqsMessage)) :
    (rabbitProcess callbackOk (xs ++ msg :: ys) =
        rabbitProcess callbackOk xs ++
          onMessage false callbackOk msg :: rabbitProcess callbackOk ys) ∧
      (∀ payload, msg.body = some payload → callbackOk payload = false →
        onMessage false callbackOk msg = DeliveryOutcome.nacked msg.deliveryTag false) ∧
      ((sqsIteration batchOk batch).escaped = true →
        sqsLoop batchOk (batch :: rest) = [sqsIteration batchOk batch] ∧
          (sqsIteration batchOk batch).deletedHandles = []) := by
  refine ⟨?_, ?_, ?_⟩
  · simp [rabbitProcess]
  · intro payload hb hf
    simp [onMessage, hb, hf]
  · intro hesc
    exact ⟨by simp [sqsLoop, hesc], sqsIteration_escaped_no_delete batchOk batch hesc⟩

/-- Claim C3 amended witness at concrete inputs: one RabbitMQ delivery whose
callback fails is nacked without requeue between two independently processed
ones, and an SQS batch whose callback fails aborts the loop with no
deletes. -/
theorem c3_amended_failure_isolation_per_adapter_witness :
    (rabbitProcess (fun _ => false)
        ([RabbitDelivery.mk 1 (some (PyVal.atom "a"))] ++
          RabbitDelivery.mk 2 (some (PyVal.atom "b")) ::
            [RabbitDelivery.mk 3 (some (PyVal.atom "c"))]) =
        rabbitProcess (fun _ => false) [RabbitDelivery.mk 1 (some (PyVal.atom "a"))] ++
          onMessage false (fun _ => false) (RabbitDelivery.mk 2 (some (PyVal.atom "b"))) ::
            rabbitProcess (fun _ => false) [RabbitDelivery.mk 3 (some (PyVal.atom "c"))]) ∧
      onMessage false (fun _ => false) (RabbitDelivery.mk 2 (some (PyVal.atom "b"))) =
        DeliveryOutcome.nacked 2 false := by
  have h := c3_amended_failure_isolation_per_adapter (fun _ => false)
    [RabbitDelivery.mk 1 (some (PyVal.atom "a"))]
    [RabbitDelivery.mk 3 (some (PyVal.atom "c"))]
    (RabbitDelivery.mk 2 (some (PyVal.atom "b")))
    (fun _ => false) [SqsMessage.mk 1 (some (PyVal.atom "p"))] []
  exact ⟨h.1, h.2.1 (PyVal.atom "b") rfl rfl⟩

/-- What the SQS accumulation loop collects: the successfully parsed payloads
in order, their receipt handles, and one warning per unparseable body. -/
theorem sqsCollect_spec (msgs : List SqsMessage) :
    sqsCollect msgs =
      (msgs.filterMap (fun m => m.body),
        (msgs.filter (fun m => m.body.isSome)).map (fun m => m.receiptHandle),
        (msgs.filter (fun m => m.body.isNone)).length) := by
  induction msgs with
  | nil => rfl
  | cons msg rest ih =>
    rcases hb : msg.body with _ | payload <;>
      simp [sqsCollect, hb, ih, List.filter_cons]

/-- Claim C9 counterexample: a batch holding one unparseable message (handle
1) and one parseable message (handle 2) produces one warning, passes only the
parsed payload to the callback — but deletes only handle 2: the unparseable
message is never deleted from the queue, so the broker redelivers it after the
visibility timeout instead of dropping it permanently. -/
theorem c9_unparseable_message_left_on_queue :
    sqsIteration (fun _ => true)
        [SqsMessage.mk 1 Option.none, SqsMessage.mk 2 (some (PyVal.atom "ok"))] =
      ⟨1, some [PyVal.atom "ok"], [2], false⟩ ∧
      1 ∉ (sqsIteration (fun _ => true)
          [SqsMessage.mk 1 Option.none,
            SqsMessage.mk 2 (some (PyVal.atom "ok"))]).deletedHandles :=
  ⟨rfl, by decide⟩

/-- Claim C9 amended: the SQS adapter logs one warning per unparseable body
and excludes those messages from the batch passed to the callback; but their
receipt handles are never deleted, so such messages stay on the queue for the
broker to redeliver — the decode failure is not treated as permanent. -/
theorem c9_amended_unparseable_excluded_not_deleted
    (callbackOk : List PyVal → Bool) (msgs : List SqsMessage) :
    (sqsIteration callbackOk msgs).parseWarnings =
        (msgs.filter (fun m => m.body.isNone)).length ∧
      (∀ batch, (sqsIteration callbackOk msgs).callbackBatch = some batch →
        batch = msgs.filterMap (fun m => m.body)) ∧
      (∀ m ∈ msgs, m.body = Option.none →
        (msgs.map (fun x => x.receiptHandle)).Nodup →
        m.receiptHandle ∉ (sqsIteration callbackOk msgs).deletedHandles) := by
  have hdel : (sqsIteration callbackOk msgs).deletedHandles = [] ∨
      (sqsIteration callbackOk msgs).deletedHandles = (sqsCollect msgs).2.1 := by
    unfold sqsIteration
    split_ifs <;> simp
  refine ⟨?_, ?_, ?_⟩
  · have hwarn : (sqsIteration callbackOk msgs).parseWarnings = (sqsCollect msgs).2.2 := by
      unfold sqsIteration
      split_ifs <;> rfl
    rw [hwarn, sqsCollect_spec]
  · intro batch hbatch
    have hcb : (sqsIteration callbackOk msgs).callbackBatch = Option.none ∨
        (sqsIteration callbackOk msgs).callbackBatch = some (sqsCollect msgs).1 := by
      unfold sqsIteration
      split_ifs <;> simp
    rcases hcb with hcb | hcb
    · rw [hcb] at hbatch
      exact absurd hbatch (by simp)
    · rw [hcb] at hbatch
      rw [← Option.some.inj hbatch, sqsCollect_spec]
  · intro m hm hbody hnodup hmem
    rcases hdel with hdel | hdel
    · rw [hdel] at hmem
      exact absurd hmem (List.not_mem_nil _)
    · rw [hdel, sqsCollect_spec] at hmem
      simp only [List.mem_map, List.mem_filter] at hmem
      rcases hmem with ⟨m2, ⟨hm2, hsome⟩, hhandle⟩
      have heq := List.inj_on_of_nodup_map hnodup hm2 hm hhandle
      rw [heq, hbody] at hsome
      exact absurd hsome (by simp)

/-- Claim C9 amended witness at a concrete batch: the unparseable message's
handle 1 is not among the deleted handles. -/
theorem c9_amended_unparseable_excluded_not_deleted_witness :
    1 ∉ (sqsIteration (fun _ => true)
        [SqsMessage.mk 1 Option.none,
          SqsMessage.mk 3 (some (PyVal.atom "ok"))]).deletedHandles :=
  (c9_amended_unparseable_excluded_not_deleted (fun _ => true)
      [SqsMessage.mk 1 Option.none, SqsMessage.mk 3 (some (PyVal.atom "ok"))]).2.2
    (SqsMessage.mk 1 Option.none) (by decide) rfl (by decide)

/-- Claim C10 witness at a concrete non-list input. -/
theorem c10_send_never_raises_witness :
    (send (SendConfig.mk false "paper" ["log"]) (fun _ => false) (PyVal.atom "x")).outcome =
      PyOutcome.returned :=
  (c10_send_never_raises (SendConfig.mk false "paper" ["log"]) (fun _ => false)
    (PyVal.atom "x")).1

end TemplatePy
